import Mathlib

/-!
Verification of the YouTube chat application (`src/app.py`).

The development shallowly embeds the pure logic of the program:
  * `extract_video_id` — the URL identifier extractor,
  * `fetch_video_data` — the transcript acquisition adapter, with the
    external transcript service modelled by an oracle,
  * `load_video_button` / `chat_section` — the Streamlit handlers, as pure
    state-transition functions on the session state.

Python string primitives (`str.split`, `in`, `str.join`) are embedded as
structurally recursive functions over `List Char` so that every definition
evaluates by kernel reduction.
-/

namespace YtChat

instance {ε α : Type} [DecidableEq ε] [DecidableEq α] : DecidableEq (Except ε α) := fun x y =>
  match x, y with
  | .ok a, .ok b =>
    if h : a = b then .isTrue (by rw [h]) else .isFalse (by intro hc; cases hc; exact h rfl)
  | .error a, .error b =>
    if h : a = b then .isTrue (by rw [h]) else .isFalse (by intro hc; cases hc; exact h rfl)
  | .ok _, .error _ => .isFalse (by intro hc; cases hc)
  | .error _, .ok _ => .isFalse (by intro hc; cases hc)

/-- Python `sep in s` substring containment for a pattern over characters. -/
def pyContains (pat : List Char) : List Char → Bool
  | [] => decide (pat = [])
  | c :: rest => pat.isPrefixOf (c :: rest) || pyContains pat rest

/-- Worker for `pySplit`: scans `s` left to right, accumulating the current
piece in `acc` (reversed order not used; `acc` is kept in order), splitting at
each non-overlapping occurrence of `sep`.  `fuel` bounds the recursion and is
always at least `s.length + 1` at the call sites. -/
def splitOnGo (sep : List Char) : Nat → List Char → List Char → List (List Char)
  | 0, s, acc => [acc ++ s]
  | fuel + 1, s, acc =>
    match s with
    | [] => [acc]
    | c :: rest =>
      if sep.isPrefixOf (c :: rest) then
        acc :: splitOnGo sep fuel (rest.drop (sep.length - 1)) []
      else
        splitOnGo sep fuel rest (acc ++ [c])

/-- Python `s.split(sep)` for a non-empty separator: split `s` at every
non-overlapping occurrence of `sep`, scanning left to right.  Always returns a
non-empty list. -/
def pySplit (sep s : List Char) : List (List Char) :=
  splitOnGo sep (s.length + 1) s []

/-- Python `s.split(sep)[0]`. -/
def firstPart (sep s : List Char) : List Char :=
  (pySplit sep s).headD []

/-- Python `s.split(sep)[-1]`. -/
def lastPart (sep s : List Char) : List Char :=
  (pySplit sep s).getLastD []

/-- Python `sep.join(l)`. -/
def pyJoin (sep : String) : List String → String
  | [] => ""
  | [x] => x
  | x :: xs => x ++ sep ++ pyJoin sep xs

/-- `"youtube.com/watch?v=" in video_url` (`app.py` line 44). -/
def hasWatchMarker (url : String) : Bool :=
  pyContains "youtube.com/watch?v=".data url.data

/-- `"youtube.com/shorts/" in video_url` (`app.py` line 46). -/
def hasShortsMarker (url : String) : Bool :=
  pyContains "youtube.com/shorts/".data url.data

/-- `"youtu.be/" in video_url` (`app.py` line 49). -/
def hasShortLinkMarker (url : String) : Bool :=
  pyContains "youtu.be/".data url.data

/-- The message of the `ValueError` raised by `extract_video_id`. -/
def invalidUrlMsg : String := "Invalid or unrecognized YouTube URL format."

/-- `extract_video_id` (`app.py` lines 42-61).  Python exceptions are embedded
as `Except`: the `ValueError` of the unrecognized-URL path becomes
`Except.error invalidUrlMsg`. -/
def extract_video_id (video_url : String) : Except String String :=
  let u := video_url.data
  if hasWatchMarker video_url then
    Except.ok (String.mk (firstPart ['&'] (lastPart "v=".data u)))
  else if hasShortsMarker video_url then
    Except.ok (String.mk (firstPart ['&'] (firstPart ['?'] (lastPart "/shorts/".data u))))
  else if hasShortLinkMarker video_url then
    Except.ok (String.mk (firstPart ['&'] (firstPart ['?'] (lastPart "youtu.be/".data u))))
  else
    let parts := pySplit ['/'] u
    if 1 < parts.length then
      let potential_id := firstPart ['&'] (firstPart ['?'] (parts.getLastD []))
      if potential_id.length = 11 then
        Except.ok (String.mk potential_id)
      else
        Except.error invalidUrlMsg
    else
      Except.error invalidUrlMsg

/-- The sentinel text returned by `fetch_video_data` on any failure
(`app.py` line 84). -/
def sentinelText : String := "No transcript available for this video."

/-- Outcome of the external transcript service for one video identifier,
modelling the calls in `app.py` lines 69-76.  Transcript segments are
modelled by their `"text"` field, in service order.
  * `listFail` — `list_transcripts` raises;
  * `englishTrack segs` — `find_generated_transcript(['en']).fetch()` succeeds;
  * `fallbackTrack segs` — the English lookup raises and the fallback
    `find_transcript(...).fetch()` succeeds;
  * `noTrack` — both the English lookup and the fallback raise. -/
inductive FetchOutcome : Type where
  | listFail : FetchOutcome
  | englishTrack : List String → FetchOutcome
  | fallbackTrack : List String → FetchOutcome
  | noTrack : FetchOutcome
deriving DecidableEq

/-- `fetch_video_data` (`app.py` lines 64-84), parameterised by the external
transcript service `svc` (keyed by video identifier).  The surrounding
`try/except` catches every exception — including the `ValueError` of
`extract_video_id` — and returns `("Unknown", sentinelText)`. -/
def fetch_video_data (svc : String → FetchOutcome) (video_url : String) :
    String × String :=
  match extract_video_id video_url with
  | .error _ => ("Unknown", sentinelText)
  | .ok video_id =>
    match svc video_id with
    | .listFail => ("Unknown", sentinelText)
    | .noTrack => ("Unknown", sentinelText)
    | .englishTrack segs => ("Video (ID: " ++ video_id ++ ")", pyJoin " " segs)
    | .fallbackTrack segs => ("Video (ID: " ++ video_id ++ ")", pyJoin " " segs)

/-- One chat message of `st.session_state.messages`: a dict
`{"role": ..., "content": ...}` (`app.py` lines 175 and 202). -/
structure ConversationTurn : Type where
  role : String
  content : String
deriving DecidableEq

/-- The per-session Streamlit state used by the handlers (`app.py` lines
93-100).  The `embedchain` app handle is modelled by its truthiness: `app =
true` iff `st.session_state.app` is not `None`. -/
structure SessionState : Type where
  app : Bool
  current_video_url : String
  messages : List ConversationTurn
deriving DecidableEq

/-- The user-facing notice emitted by one click of the Load Video button. -/
inductive LoadNotice : Type where
  | successAdded : LoadNotice
  | warnNoTranscript : LoadNotice
  | errorProcessing : LoadNotice
  | warnApiKey : LoadNotice
  | infoAlreadyLoaded : LoadNotice
  | silent : LoadNotice
deriving DecidableEq

/-- Result of one click of the Load Video button: the new session state,
whether `st.session_state.app.add` was invoked, and the notice shown. -/
structure LoadResult : Type where
  state : SessionState
  addCalled : Bool
  notice : LoadNotice
deriving DecidableEq

/-- The Load Video button handler (`app.py` lines 130-154), parameterised by
the transcript service `svc` and by whether the knowledge-base `add` call
succeeds (`addOk = false` embeds `app.add` raising, caught at line 149, so
none of the assignments at lines 142-143 happen). -/
def load_video_button (svc : String → FetchOutcome) (addOk : Bool)
    (s : SessionState) (video_url_input : String) : LoadResult :=
  if s.app = true ∧ video_url_input ≠ "" ∧
      video_url_input ≠ s.current_video_url then
    let r := fetch_video_data svc video_url_input
    if r.2 ≠ sentinelText then
      if addOk then
        ⟨⟨s.app, video_url_input, []⟩, true, .successAdded⟩
      else
        ⟨s, true, .errorProcessing⟩
    else
      ⟨s, false, .warnNoTranscript⟩
  else if s.app = false then
    ⟨s, false, .warnApiKey⟩
  else if video_url_input = s.current_video_url then
    ⟨s, false, .infoAlreadyLoaded⟩
  else
    ⟨s, false, .silent⟩

/-- The main chat interface (`app.py` lines 160-202), parameterised by the
outcome of `st.session_state.app.chat` (`askRes = .error e` embeds `chat`
raising `e`, caught at line 197).  `promptOpt` is the submitted chat input,
if any.  Returns the new session state and whether `app.chat` was invoked.
The `.ok` payload is the final answer string after the string-vs-object
normalisation of line 188. -/
def chat_section (askRes : Except String String) (s : SessionState)
    (promptOpt : Option String) : SessionState × Bool :=
  if s.current_video_url = "" then
    (s, false)
  else if s.app = false then
    (s, false)
  else
    match promptOpt with
    | none => (s, false)
    | some prompt =>
      let s1 : SessionState :=
        { s with messages := s.messages ++ [⟨"user", prompt⟩] }
      let full_response :=
        match askRes with
        | .ok answer => answer
        | .error e => "Sorry, an error occurred: " ++ e
      ({ s1 with messages := s1.messages ++ [⟨"assistant", full_response⟩] },
       true)

/-! ### Spec-side definitions

These follow the wording of the specification (§4.1 and §8), to be compared
with the code-side `extract_video_id`. -/

/-- Spec side: "up to the next parameter separator" — the longest prefix of
`s` containing neither `?` nor `&`. -/
def upToParamSep (s : List Char) : List Char :=
  s.takeWhile (fun c => !(c == '?' || c == '&'))

/-- The longest prefix of `s` containing no `&` (a `?` is not treated as a
separator).  This is the separator rule the watch-page branch of the code
actually implements. -/
def upToAmp (s : List Char) : List Char :=
  s.takeWhile (fun c => !(c == '&'))

/-- Spec side: "the substring following that marker" — the text after the
last occurrence of `marker` in `url`, occurrences taken by the same
left-to-right non-overlapping scan as `str.split`. -/
def textFollowingMarker (marker url : String) : List Char :=
  lastPart marker.data url.data

/-- Spec side: "split the URL on path separators and take the last
segment". -/
def lastSegment (url : String) : List Char :=
  (pySplit ['/'] url.data).getLastD []

/-! ### Helper lemmas -/

theorem splitOnGo_single_headD (c : Char) :
    ∀ (fuel : Nat) (s acc : List Char), s.length < fuel →
      (splitOnGo [c] fuel s acc).headD [] = acc ++ s.takeWhile (fun d => !(d == c))
  | 0, s, acc, h => absurd h (Nat.not_lt_zero _)
  | fuel + 1, [], acc, _ => by simp [splitOnGo]
  | fuel + 1, d :: rest, acc, h => by
    have hr : rest.length < fuel := Nat.lt_of_succ_lt_succ h
    by_cases hdc : (c == d) = true
    · have hd : d = c := (beq_iff_eq.mp hdc).symm
      simp [splitOnGo, List.isPrefixOf, hdc, List.takeWhile_cons, hd]
    · have hd : ¬(d == c) = true := by
        intro hx
        exact hdc (beq_iff_eq.mpr (beq_iff_eq.mp hx).symm)
      simp only [splitOnGo, List.isPrefixOf, Bool.and_true, hdc, Bool.false_eq_true,
        if_false, List.takeWhile_cons]
      rw [splitOnGo_single_headD c fuel rest (acc ++ [d]) hr]
      simp [hd]

/-- `s.split(c)[0]` is the longest prefix of `s` not containing `c`. -/
theorem firstPart_single (c : Char) (s : List Char) :
    firstPart [c] s = s.takeWhile (fun d => !(d == c)) := by
  have h := splitOnGo_single_headD c (s.length + 1) s [] (Nat.lt_succ_self _)
  simpa [firstPart, pySplit] using h

/-- `s.split("?")[0].split("&")[0]` strips at the first `?` or `&`. -/
theorem firstPart_question_amp (s : List Char) :
    firstPart ['&'] (firstPart ['?'] s) = upToParamSep s := by
  rw [firstPart_single, firstPart_single, upToParamSep]
  induction s with
  | nil => rfl
  | cons d rest ih =>
    cases hq : (d == '?') <;> cases ha : (d == '&') <;>
      simp [List.takeWhile_cons, hq, ha, ih]

/-- The no-marker fallback branch of `extract_video_id`, in code shape. -/
theorem extract_video_id_noMarker (url : String)
    (h1 : hasWatchMarker url = false) (h2 : hasShortsMarker url = false)
    (h3 : hasShortLinkMarker url = false) :
    extract_video_id url =
      (if 1 < (pySplit ['/'] url.data).length ∧
          (upToParamSep (lastSegment url)).length = 11 then
        Except.ok (String.mk (upToParamSep (lastSegment url)))
      else
        Except.error invalidUrlMsg) := by
  rw [extract_video_id]
  simp only [h1, h2, h3, Bool.false_eq_true, if_false, lastSegment,
    firstPart_question_amp]
  by_cases hl : 1 < (pySplit ['/'] url.data).length
  · by_cases h11 : (upToParamSep ((pySplit ['/'] url.data).getLastD [])).length = 11
    · simp [hl, h11]
    · simp [hl, h11]
  · simp [hl]

/-! ### Claim C1 -/

/-- Claim C1, counterexample.  The claim states that for every URL of the
watch-page shape the extractor returns the substring between the marker and
the next `?` or `&`.  On `https://www.youtube.com/watch?v=abc?t=1` that
substring is `abc`, but `extract_video_id` returns `abc?t=1`: the watch
branch splits only on `&` and leaves a `?` inside the identifier. -/
theorem extract_watch_sep_counterexample :
    hasWatchMarker "https://www.youtube.com/watch?v=abc?t=1" = true ∧
    String.mk (upToParamSep (textFollowingMarker "youtube.com/watch?v="
      "https://www.youtube.com/watch?v=abc?t=1")) = "abc" ∧
    extract_video_id "https://www.youtube.com/watch?v=abc?t=1" =
      Except.ok "abc?t=1" ∧
    ("abc?t=1" : String) ≠ "abc" := by
  decide

/-- Claim C1, amended.  For every URL of the shorts or short-link shape,
`extract_video_id` returns exactly the substring between the marker and the
next `?` or `&`; for the watch-page shape it returns the substring between
the `v=` marker and the next `&` only (a `?` after the marker is kept).
The spec's three examples hold as stated. -/
theorem extract_marker_shapes_amended :
    (∀ url : String, hasWatchMarker url = true →
      extract_video_id url =
        Except.ok (String.mk (upToAmp (textFollowingMarker "v=" url)))) ∧
    (∀ url : String, hasWatchMarker url = false →
      hasShortsMarker url = true →
      extract_video_id url =
        Except.ok (String.mk (upToParamSep (textFollowingMarker "/shorts/" url)))) ∧
    (∀ url : String, hasWatchMarker url = false →
      hasShortsMarker url = false → hasShortLinkMarker url = true →
      extract_video_id url =
        Except.ok (String.mk (upToParamSep (textFollowingMarker "youtu.be/" url)))) ∧
    extract_video_id "https://www.youtube.com/watch?v=dQw4w9WgXcQ&t=30s" =
      Except.ok "dQw4w9WgXcQ" ∧
    extract_video_id "https://youtu.be/dQw4w9WgXcQ" = Except.ok "dQw4w9WgXcQ" ∧
    extract_video_id "https://www.youtube.com/shorts/abc12345678?feature=share" =
      Except.ok "abc12345678" := by
  refine ⟨?_, ?_, ?_, by decide, by decide, by decide⟩
  · intro url h
    rw [extract_video_id]
    simp only [h, if_true, textFollowingMarker, upToAmp, firstPart_single]
  · intro url h1 h2
    rw [extract_video_id]
    simp only [h1, h2, Bool.false_eq_true, if_false, if_true,
      textFollowingMarker, firstPart_question_amp]
  · intro url h1 h2 h3
    rw [extract_video_id]
    simp only [h1, h2, h3, Bool.false_eq_true, if_false, if_true,
      textFollowingMarker, firstPart_question_amp]

/-- Claim C1, witness: the amended theorem applied to the watch-page and
shorts examples. -/
theorem extract_marker_shapes_amended_witness :
    extract_video_id "https://www.youtube.com/watch?v=dQw4w9WgXcQ&t=30s" =
      Except.ok (String.mk (upToAmp (textFollowingMarker "v="
        "https://www.youtube.com/watch?v=dQw4w9WgXcQ&t=30s"))) ∧
    extract_video_id "https://www.youtube.com/shorts/abc12345678?feature=share" =
      Except.ok (String.mk (upToParamSep (textFollowingMarker "/shorts/"
        "https://www.youtube.com/shorts/abc12345678?feature=share"))) :=
  ⟨extract_marker_shapes_amended.1
      "https://www.youtube.com/watch?v=dQw4w9WgXcQ&t=30s" (by decide),
   extract_marker_shapes_amended.2.1
      "https://www.youtube.com/shorts/abc12345678?feature=share"
      (by decide) (by decide)⟩

/-! ### Claim C4 -/

/-- Claim C4, counterexample.  The claim states that `extract_video_id` never
returns the empty string, in particular on a watch-page URL where nothing
follows the marker.  On `https://www.youtube.com/watch?v=` the code returns
`Except.ok ""` instead of failing. -/
theorem extract_empty_id_counterexample :
    hasWatchMarker "https://www.youtube.com/watch?v=" = true ∧
    extract_video_id "https://www.youtube.com/watch?v=" = Except.ok "" := by
  decide

/-- Claim C4, amended.  Only the no-marker fallback path never returns an
empty identifier: there `extract_video_id` either fails with the
`ValueError` message or returns an identifier of length exactly 11 (hence
non-empty).  On the recognized-marker paths the returned identifier may be
empty when nothing follows the marker, e.g. on `https://youtu.be/`. -/
theorem extract_nonempty_amended :
    (∀ url : String, hasWatchMarker url = false →
      hasShortsMarker url = false → hasShortLinkMarker url = false →
      extract_video_id url = Except.error invalidUrlMsg ∨
        ∃ id : String, extract_video_id url = Except.ok id ∧
          id.length = 11 ∧ id ≠ "") ∧
    extract_video_id "https://youtu.be/" = Except.ok "" := by
  refine ⟨?_, by decide⟩
  intro url h1 h2 h3
  rw [extract_video_id_noMarker url h1 h2 h3]
  by_cases hc : 1 < (pySplit ['/'] url.data).length ∧
      (upToParamSep (lastSegment url)).length = 11
  · right
    refine ⟨String.mk (upToParamSep (lastSegment url)), by rw [if_pos hc], ?_, ?_⟩
    · show (upToParamSep (lastSegment url)).length = 11
      exact hc.2
    · intro he
      have h0 : (upToParamSep (lastSegment url)).length = 0 := by
        have hdata : upToParamSep (lastSegment url) = ([] : List Char) := by
          have := congrArg String.data he
          simpa using this
        rw [hdata]
        rfl
      rw [hc.2] at h0
      exact absurd h0 (by decide)
  · left
    rw [if_neg hc]

/-- Claim C4, witness: the amended fallback statement at a URL with an
11-character last segment and at one with a shorter last segment. -/
theorem extract_nonempty_amended_witness :
    (extract_video_id "https://vimeo.com/abcdefghijk" = Except.error invalidUrlMsg ∨
      ∃ id : String, extract_video_id "https://vimeo.com/abcdefghijk" = Except.ok id ∧
        id.length = 11 ∧ id ≠ "") ∧
    (extract_video_id "https://vimeo.com/xyz" = Except.error invalidUrlMsg ∨
      ∃ id : String, extract_video_id "https://vimeo.com/xyz" = Except.ok id ∧
        id.length = 11 ∧ id ≠ "") :=
  ⟨extract_nonempty_amended.1 "https://vimeo.com/abcdefghijk"
      (by decide) (by decide) (by decide),
   extract_nonempty_amended.1 "https://vimeo.com/xyz"
      (by decide) (by decide) (by decide)⟩

/-! ### Claim C5 -/

/-- Claim C5, counterexample.  The claim states that the fallback rule also
applies to strings with no path separator.  The string `abcdefghijk` contains
no marker and no `/`, its (single) last segment stripped of any query string
is exactly 11 characters long, yet `extract_video_id` fails: the code guards
the fallback with `len(parts) > 1`. -/
theorem extract_no_separator_counterexample :
    hasWatchMarker "abcdefghijk" = false ∧
    hasShortsMarker "abcdefghijk" = false ∧
    hasShortLinkMarker "abcdefghijk" = false ∧
    lastSegment "abcdefghijk" = "abcdefghijk".data ∧
    (upToParamSep (lastSegment "abcdefghijk")).length = 11 ∧
    extract_video_id "abcdefghijk" = Except.error invalidUrlMsg := by
  decide

/-- Claim C5, amended.  For URLs containing none of the three markers, the
extractor splits on `/`, takes the last segment stripped at the first `?` or
`&`, and accepts it iff it is exactly 11 characters long AND the URL contains
at least one path separator; a string with no `/` always fails, even when it
is itself 11 characters long. -/
theorem extract_fallback_amended (url : String)
    (h1 : hasWatchMarker url = false) (h2 : hasShortsMarker url = false)
    (h3 : hasShortLinkMarker url = false) :
    extract_video_id url =
      (if 1 < (pySplit ['/'] url.data).length ∧
          (upToParamSep (lastSegment url)).length = 11 then
        Except.ok (String.mk (upToParamSep (lastSegment url)))
      else
        Except.error invalidUrlMsg) :=
  extract_video_id_noMarker url h1 h2 h3

/-- Claim C5, witness: the amended fallback statement at a no-marker URL
with an 11-character last segment. -/
theorem extract_fallback_amended_witness :
    extract_video_id "https://vimeo.com/abcdefghijk" =
      (if 1 < (pySplit ['/'] "https://vimeo.com/abcdefghijk".data).length ∧
          (upToParamSep (lastSegment "https://vimeo.com/abcdefghijk")).length = 11 then
        Except.ok (String.mk (upToParamSep (lastSegment "https://vimeo.com/abcdefghijk")))
      else
        Except.error invalidUrlMsg) :=
  extract_fallback_amended "https://vimeo.com/abcdefghijk"
    (by decide) (by decide) (by decide)

/-! ### Claim C2 -/

/-- Claim C2.  When the submitted URL equals the currently loaded URL (and
the app handle exists, as after any successful load), the Load Video handler
leaves the session state — conversation history and loaded-video URL —
unchanged, does not invoke the knowledge-base `add` operation, and emits
only the informational already-loaded notice.  This holds for every
transcript-service behaviour and every `add` outcome. -/
theorem load_same_url_idempotent (svc : String → FetchOutcome) (addOk : Bool)
    (s : SessionState) (url : String) (happ : s.app = true)
    (hurl : url = s.current_video_url) :
    load_video_button svc addOk s url = ⟨s, false, LoadNotice.infoAlreadyLoaded⟩ := by
  rw [load_video_button]
  rw [if_neg (by
    intro hc
    exact hc.2.2 hurl)]
  rw [if_neg (by rw [happ]; intro hc; cases hc)]
  rw [if_pos hurl]

/-- Claim C2, witness: reloading the already-loaded URL is a no-op. -/
theorem load_same_url_idempotent_witness :
    load_video_button (fun _ => FetchOutcome.listFail) true
        ⟨true, "https://youtu.be/dQw4w9WgXcQ", [⟨"user", "hi"⟩]⟩
        "https://youtu.be/dQw4w9WgXcQ" =
      ⟨⟨true, "https://youtu.be/dQw4w9WgXcQ", [⟨"user", "hi"⟩]⟩, false,
        LoadNotice.infoAlreadyLoaded⟩ :=
  load_same_url_idempotent (fun _ => FetchOutcome.listFail) true
    ⟨true, "https://youtu.be/dQw4w9WgXcQ", [⟨"user", "hi"⟩]⟩
    "https://youtu.be/dQw4w9WgXcQ" rfl rfl

/-! ### Claim C3 -/

/-- Claim C3.  Whenever a URL different from the currently loaded one is
successfully loaded (transcript available and `add` succeeds), the
conversation history is cleared in full (no turn is appended by the load)
and the loaded-video state is replaced by the new URL. -/
theorem load_new_url_resets (svc : String → FetchOutcome)
    (s : SessionState) (url : String) (happ : s.app = true) (hne : url ≠ "")
    (hdiff : url ≠ s.current_video_url)
    (havail : (fetch_video_data svc url).2 ≠ sentinelText) :
    load_video_button svc true s url =
      ⟨⟨true, url, []⟩, true, LoadNotice.successAdded⟩ := by
  rw [load_video_button, if_pos ⟨happ, hne, hdiff⟩, if_pos havail, if_pos rfl,
    happ]

/-- Claim C3, witness: loading a fresh URL with an available transcript
clears the history and replaces the current URL. -/
theorem load_new_url_resets_witness :
    load_video_button (fun _ => FetchOutcome.englishTrack ["hello", "world"])
        true ⟨true, "https://youtu.be/oldoldoldol", [⟨"user", "hi"⟩]⟩
        "https://youtu.be/dQw4w9WgXcQ" =
      ⟨⟨true, "https://youtu.be/dQw4w9WgXcQ", []⟩, true,
        LoadNotice.successAdded⟩ :=
  load_new_url_resets (fun _ => FetchOutcome.englishTrack ["hello", "world"])
    ⟨true, "https://youtu.be/oldoldoldol", [⟨"user", "hi"⟩]⟩
    "https://youtu.be/dQw4w9WgXcQ" rfl (by decide) (by decide) (by decide)

/-! ### Claim C6 -/

/-- Claim C6.  If the knowledge-base `add` operation fails during a video
load, the session state does not advance: the loaded-video URL and the
conversation history are exactly what they were before the attempt (the
handler assigns them only after `add` returns), and the error notice is
shown.  `add` was invoked exactly once. -/
theorem load_add_failure_atomic (svc : String → FetchOutcome)
    (s : SessionState) (url : String) (happ : s.app = true) (hne : url ≠ "")
    (hdiff : url ≠ s.current_video_url)
    (havail : (fetch_video_data svc url).2 ≠ sentinelText) :
    load_video_button svc false s url = ⟨s, true, LoadNotice.errorProcessing⟩ := by
  rw [load_video_button, if_pos ⟨happ, hne, hdiff⟩, if_pos havail,
    if_neg (by intro hc; cases hc)]

/-- Claim C6, witness: a failing `add` leaves the whole prior state in
place. -/
theorem load_add_failure_atomic_witness :
    load_video_button (fun _ => FetchOutcome.englishTrack ["hello", "world"]) false
        ⟨true, "https://youtu.be/oldoldoldol", [⟨"user", "hi"⟩]⟩
        "https://youtu.be/dQw4w9WgXcQ" =
      ⟨⟨true, "https://youtu.be/oldoldoldol", [⟨"user", "hi"⟩]⟩, true,
        LoadNotice.errorProcessing⟩ :=
  load_add_failure_atomic (fun _ => FetchOutcome.englishTrack ["hello", "world"])
    ⟨true, "https://youtu.be/oldoldoldol", [⟨"user", "hi"⟩]⟩
    "https://youtu.be/dQw4w9WgXcQ" rfl (by decide) (by decide) (by decide)

/-! ### Claim C7 -/

/-- Claim C7.  When the `chat` call raises during a chat submission, exactly
one new assistant turn containing the synthesized error message is appended
after the user turn; the user turn remains in history, nothing is rolled
back, and neither the loaded-video URL nor the app handle changes. -/
theorem chat_query_error_turns (e : String) (s : SessionState)
    (prompt : String) (hurl : s.current_video_url ≠ "") (happ : s.app = true) :
    chat_section (Except.error e) s (some prompt) =
      ({ s with messages := s.messages ++
          [⟨"user", prompt⟩, ⟨"assistant", "Sorry, an error occurred: " ++ e⟩] },
       true) := by
  rw [chat_section.eq_def]
  rw [if_neg hurl]
  rw [if_neg (by rw [happ]; intro hc; cases hc)]
  simp

/-- Claim C7, witness: a failing `chat` call appends the user turn and one
synthesized assistant turn. -/
theorem chat_query_error_turns_witness :
    chat_section (Except.error "quota exceeded")
        ⟨true, "https://youtu.be/dQw4w9WgXcQ", [⟨"user", "hi"⟩]⟩
        (some "what is this video about") =
      (⟨true, "https://youtu.be/dQw4w9WgXcQ",
          [⟨"user", "hi"⟩, ⟨"user", "what is this video about"⟩,
           ⟨"assistant", "Sorry, an error occurred: quota exceeded"⟩]⟩,
       true) :=
  chat_query_error_turns "quota exceeded"
    ⟨true, "https://youtu.be/dQw4w9WgXcQ", [⟨"user", "hi"⟩]⟩
    "what is this video about" (by decide) rfl

/-! ### Claim C8 -/

/-- Claim C8.  A chat submission attempted while no video is loaded (empty
current URL) or while there is no app handle never reaches the knowledge-base
gateway: `chat` is not invoked and no conversation turn is appended — the
state is returned unchanged, for every prompt and every would-be answer. -/
theorem chat_gated_when_no_video (askRes : Except String String)
    (s : SessionState) (promptOpt : Option String)
    (h : s.current_video_url = "" ∨ s.app = false) :
    chat_section askRes s promptOpt = (s, false) := by
  rw [chat_section.eq_def]
  rcases h with h | h
  · rw [if_pos h]
  · by_cases h0 : s.current_video_url = ""
    · rw [if_pos h0]
    · rw [if_neg h0, if_pos h]

/-- Claim C8, witness: with no video loaded, a submitted prompt changes
nothing and the gateway is not called. -/
theorem chat_gated_when_no_video_witness :
    chat_section (Except.ok "an answer") ⟨true, "", []⟩ (some "hello") =
      (⟨true, "", []⟩, false) :=
  chat_gated_when_no_video (Except.ok "an answer") ⟨true, "", []⟩
    (some "hello") (Or.inl rfl)

/-! ### Claim C9 -/

/-- Claim C9.  For every video URL and every transcript-service behaviour:
when any step of transcript acquisition fails — identifier extraction, track
listing, or both track selections — `fetch_video_data` returns
`("Unknown", sentinelText)` with the text exactly
`No transcript available for this video.` instead of propagating the error;
when a track is obtained (the English one or the fallback), it returns the
segment texts in service order joined by single spaces, under the
fixed-format title embedding the video identifier. -/
theorem fetch_degrade_gracefully (svc : String → FetchOutcome) (url : String) :
    (∀ e : String, extract_video_id url = Except.error e →
      fetch_video_data svc url = ("Unknown", sentinelText)) ∧
    (∀ vid : String, extract_video_id url = Except.ok vid →
      svc vid = FetchOutcome.listFail →
      fetch_video_data svc url = ("Unknown", sentinelText)) ∧
    (∀ vid : String, extract_video_id url = Except.ok vid →
      svc vid = FetchOutcome.noTrack →
      fetch_video_data svc url = ("Unknown", sentinelText)) ∧
    (∀ (vid : String) (segs : List String),
      extract_video_id url = Except.ok vid →
      svc vid = FetchOutcome.englishTrack segs →
      fetch_video_data svc url =
        ("Video (ID: " ++ vid ++ ")", pyJoin " " segs)) ∧
    (∀ (vid : String) (segs : List String),
      extract_video_id url = Except.ok vid →
      svc vid = FetchOutcome.fallbackTrack segs →
      fetch_video_data svc url =
        ("Video (ID: " ++ vid ++ ")", pyJoin " " segs)) := by
  refine ⟨?_, ?_, ?_, ?_, ?_⟩
  · intro e he
    rw [fetch_video_data, he]
  · intro vid hv hs
    rw [fetch_video_data, hv]
    simp [hs]
  · intro vid hv hs
    rw [fetch_video_data, hv]
    simp [hs]
  · intro vid segs hv hs
    rw [fetch_video_data, hv]
    simp [hs]
  · intro vid segs hv hs
    rw [fetch_video_data, hv]
    simp [hs]

/-- Claim C9, witness: a listing failure yields the sentinel result, and a
successful English track yields the joined segments under the fixed-format
title. -/
theorem fetch_degrade_gracefully_witness :
    fetch_video_data (fun _ => FetchOutcome.listFail)
        "https://youtu.be/dQw4w9WgXcQ" = ("Unknown", sentinelText) ∧
    fetch_video_data (fun _ => FetchOutcome.englishTrack ["hello", "world"])
        "https://youtu.be/dQw4w9WgXcQ" =
      ("Video (ID: " ++ "dQw4w9WgXcQ" ++ ")", pyJoin " " ["hello", "world"]) :=
  ⟨(fetch_degrade_gracefully (fun _ => FetchOutcome.listFail)
      "https://youtu.be/dQw4w9WgXcQ").2.1 "dQw4w9WgXcQ" (by decide) rfl,
   (fetch_degrade_gracefully (fun _ => FetchOutcome.englishTrack ["hello", "world"])
      "https://youtu.be/dQw4w9WgXcQ").2.2.2.1 "dQw4w9WgXcQ" ["hello", "world"]
      (by decide) rfl⟩

/-! ### Claim C10 -/

/-- Claim C10.  Transcript availability is decided by comparing the fetched
text against the literal sentinel string.  For a video whose genuinely
fetched transcript segments join to exactly
`No transcript available for this video.`, the fetch succeeds (the title is
the fixed-format one, not `Unknown`), yet the load handler takes the
no-transcript branch: `add` is not called, the state does not advance, and
the warning notice is shown. -/
theorem load_sentinel_collision :
    fetch_video_data
        (fun _ => FetchOutcome.englishTrack
          ["No", "transcript", "available", "for", "this", "video."])
        "https://youtu.be/dQw4w9WgXcQ" =
      ("Video (ID: dQw4w9WgXcQ)", sentinelText) ∧
    load_video_button
        (fun _ => FetchOutcome.englishTrack
          ["No", "transcript", "available", "for", "this", "video."])
        true ⟨true, "", []⟩ "https://youtu.be/dQw4w9WgXcQ" =
      ⟨⟨true, "", []⟩, false, LoadNotice.warnNoTranscript⟩ := by
  decide

end YtChat
